import Mathlib

/-!
Verification of the CZ-Agent core (query-intent classifier, fixed-stage
workflow orchestrator, mock inventory store and diagnosis synthesis) of the
`multi_agent_ops_system` repository, shallowly embedded from
`cz_agent_simple/mock_mcp_server.py`, `cz_agent_simple/workflow.py`,
`cz_agent_simple/state.py`, `cz_agent_simple/models.py` and
`cz_agent_simple/agent.py`.

Modelling conventions:
* Python `datetime` values are modelled as integers (seconds); `isoformat`
  is modelled by the injective rendering `toString`.  Every call of
  `datetime.now()` inside one function is modelled by one explicit `now`
  parameter of that function; `random.randint` in the data generator is
  modelled by injected entropy functions.
* Python dicts with statically known keys become structures; keys that are
  only conditionally written become `Option` fields; dicts used as keyed
  stores (`MOCK_SERVERS`, ...) become insertion-ordered association lists.
* Operations that can raise an uncaught exception (a `KeyError` or
  `TypeError` on a dynamically absent key / `None` value) return `Option`,
  `none` being the exception.
* Float comparisons (`oob_failure_rate > 0.8`) and confidences are modelled
  exactly over `ℚ`.
-/

namespace CZ

/-! ## Python string helpers -/

/-- Zero-padded decimal rendering, Python `f"{n:0{w}d}"`. -/
def padNum (w n : Nat) : String :=
  let s := toString n
  String.mk (List.replicate (w - s.length) '0') ++ s

/-- Test `hasPfx needle hay`: whether `needle` is a prefix of `hay` (exact characters). -/
def hasPfx : List Char → List Char → Bool
  | [], _ => true
  | _ :: _, [] => false
  | a :: as, b :: bs => a == b && hasPfx as bs

/-- Substring test on character lists, Python `needle in hay`. -/
def containsSub (needle : List Char) : List Char → Bool
  | [] => hasPfx needle []
  | c :: t => hasPfx needle (c :: t) || containsSub needle t

/-- Python `needle in hay` on strings. -/
def strContains (hay needle : String) : Bool :=
  containsSub needle.data hay.data

/-- Python `str.lower()` (ASCII letters; the queries use ASCII and Chinese). -/
def lowerStr (s : String) : String :=
  String.mk (s.data.map Char.toLower)

/-- Python truthiness of an optional string (`None` and `""` are falsy). -/
def pyTruthy : Option String → Bool
  | none => false
  | some s => s ≠ ""

/-- Rendering of an optional string in an f-string (`None` prints as `"None"`). -/
def pyShowOptStr : Option String → String
  | none => "None"
  | some s => s

/-- First-occurrence deduplication; models `list(set(...))` of strings.
(Python set iteration order is hash-dependent but fixed within a process;
no claim depends on this order.) -/
def dedupFirst : List String → List String
  | [] => []
  | x :: xs => x :: (dedupFirst xs).filter (fun y => y ≠ x)

/-- Stable ascending insertion into a sorted list (equal keys keep order). -/
def insertSorted (key : α → Nat) (x : α) : List α → List α
  | [] => [x]
  | y :: ys => if key x < key y then x :: y :: ys else y :: insertSorted key x ys

/-- Stable ascending sort by a `Nat` key; models Python `sorted(l, key=...)`
(both are stable, hence produce identical output). -/
def sortedBy (key : α → Nat) : List α → List α
  | [] => []
  | x :: xs => insertSorted key x (sortedBy key xs)

/-- Replace the value at the first occurrence of `k` (Python dict update of an
existing key keeps its position; absent key is a no-op, matching the guarded
`if tor_switch in MOCK_SWITCHES` update). -/
def updateAssoc (k : String) (f : α → α) : List (String × α) → List (String × α)
  | [] => []
  | (k', v) :: t => if k' = k then (k', f v) :: t else (k', v) :: updateAssoc k f t

/-- Modify the element at index `i` (no-op out of range), Python `l[i] = ...`
under the `if port_idx < len(...)` guard. -/
def modifyAt (i : Nat) (f : α → α) : List α → List α
  | [] => []
  | x :: xs => match i with
    | 0 => f x :: xs
    | j + 1 => x :: modifyAt j f xs

/-- Python `l[-n:]`: the last `n` elements. -/
def lastN (n : Nat) (l : List α) : List α :=
  l.drop (l.length - n)

/-- Modelled `datetime.isoformat()`: timestamps are integers, rendered
injectively. -/
def isoformat (t : Int) : String := toString t

/-! ## Data model (`models.py`) -/

inductive ServerStatus
  | online | offline | maintenance | installing | install_failed
deriving DecidableEq, Repr

def ServerStatus.value : ServerStatus → String
  | .online => "online"
  | .offline => "offline"
  | .maintenance => "maintenance"
  | .installing => "installing"
  | .install_failed => "install_failed"

inductive ConnectivityStatus
  | connected | disconnected | partial'
deriving DecidableEq, Repr

def ConnectivityStatus.value : ConnectivityStatus → String
  | .connected => "connected"
  | .disconnected => "disconnected"
  | .partial' => "partial"

structure HardwareInfo where
  cpu_model : String
  cpu_cores : Nat
  memory_gb : Nat
  disk_gb : Nat
  network_cards : List String
deriving DecidableEq, Repr

structure LocationInfo where
  region : String
  availability_zone : String
  room : String
  rack_id : String
  rack_position : Nat
deriving DecidableEq, Repr

structure NetworkPath where
  path : List String
  status : ConnectivityStatus
  last_hop_reachable : Option String := none
deriving DecidableEq, Repr

structure ConnectivityInfo where
  is_connected : Bool
  last_check_time : Int
  failure_reason : Option String := none
deriving DecidableEq, Repr

structure ServerDetails where
  server_id : String
  hostname : String
  status : ServerStatus
  ip_address : String
  hardware : HardwareInfo
  location : LocationInfo
  created_at : Int
  updated_at : Int
  tags : List (String × String)
deriving DecidableEq, Repr

structure TopologyInfo where
  server_id : String
  region : String
  availability_zone : String
  room : String
  rack_id : String
  rack_position : Nat
  in_band_network : NetworkPath
  out_of_band_network : NetworkPath
  uplink_switches : List String
  in_band_connectivity : ConnectivityInfo
  out_of_band_connectivity : ConnectivityInfo
deriving DecidableEq, Repr

structure PortInfo where
  port_id : String
  port_number : Nat
  status : String
  connected_device : Option String := none
  speed_gbps : Nat := 10
  vlan_id : Option Nat := none
deriving DecidableEq, Repr

structure SwitchInfo where
  switch_id : String
  name : String
  model : String
  status : String
  location : LocationInfo
  ports : List PortInfo
  connected_servers : List String
  uplink_switch : Option String := none
deriving DecidableEq, Repr

/-- A structured value inside a `LogEntry.details` dict (ints and strings). -/
inductive PyVal
  | int (i : Int)
  | str (s : String)
deriving DecidableEq, Repr

structure LogEntry where
  timestamp : Int
  level : String
  message : String
  component : String
  details : Option (List (String × PyVal)) := none
deriving DecidableEq, Repr

structure InstallationLog where
  server_id : String
  start_time : Int
  end_time : Option Int
  status : String
  logs : List LogEntry
  error_summary : Option String := none
deriving DecidableEq, Repr

/-- The four module-level mock registries of `mock_mcp_server.py`, as one
explicit store value (insertion-ordered association lists). -/
structure Store where
  servers : List (String × ServerDetails)
  topologies : List (String × TopologyInfo)
  switches : List (String × SwitchInfo)
  installation_logs : List (String × List InstallationLog)
deriving DecidableEq, Repr

def emptyStore : Store := ⟨[], [], [], []⟩

/-! ## Mock data generation (`mock_mcp_server.init_mock_data`) -/

def regions : List String := ["cn-north", "cn-south"]
def azs : List String := ["az1", "az2"]
def rooms : List String := ["room-01", "room-02", "room-03"]
def racks : List String := ["rack-A01", "rack-A02", "rack-B01", "rack-B02"]

/-- The `region × az × room × rack` iteration order of the nested loops. -/
def rackCombos : List (String × String × String × String) :=
  regions.flatMap (fun region =>
    azs.flatMap (fun az =>
      rooms.flatMap (fun room =>
        racks.map (fun rack => (region, az, room, rack)))))

/-- One ToR switch of the switch-creation loop; `sn` is the running
`switch_id` counter value. -/
def mkTorSwitch (sn : Nat) (combo : String × String × String × String) :
    String × SwitchInfo :=
  let (region, az, room, rack) := combo
  let tor_switch_id := "sw-tor-" ++ padNum 3 sn
  let location : LocationInfo :=
    { region := region, availability_zone := az, room := room,
      rack_id := rack, rack_position := 0 }
  let ports := (List.range 48).map (fun k =>
    let port_num := k + 1
    { port_id := tor_switch_id ++ "-port-" ++ toString port_num,
      port_number := port_num,
      status := if port_num ≤ 20 then "up" else "down",
      speed_gbps := 10 : PortInfo })
  (tor_switch_id,
   { switch_id := tor_switch_id,
     name := "ToR-" ++ region ++ "-" ++ az ++ "-" ++ room ++ "-" ++ rack,
     model := "Cisco Nexus 9300",
     status := "active",
     location := location,
     ports := ports,
     connected_servers := [],
     uplink_switch := some ("sw-agg-" ++ region ++ "-" ++ az ++ "-" ++ room) })

/-- Python `ord(region[-1]) % 256` (used in the generated IP address). -/
def lastCharOrd (s : String) : Nat :=
  (s.data.getLastD ' ').toNat % 256

/-- The body of the innermost server-creation loop: creates the server, its
topology, its installation log when install-failed, and updates the ToR
switch, for the running `server_id` counter value `n`.
`now` models the init-time `datetime.now()`; `randDays`/`randHours` model
`random.randint(1, 365)` / `random.randint(1, 72)` for server `n`. -/
def serverBody (now : Int) (randDays randHours : Nat → Nat)
    (st : Store) (n : Nat) (combo : String × String × String × String)
    (position : Nat) : Store :=
  let (region, az, room, rack) := combo
  let srv_id := "srv-" ++ padNum 4 n
  let status : ServerStatus :=
    if n % 15 = 0 then .offline
    else if n % 20 = 0 then .install_failed
    else if n % 25 = 0 then .maintenance
    else .online
  let hardware : HardwareInfo :=
    { cpu_model := "Intel Xeon Gold 6248R", cpu_cores := 48,
      memory_gb := 256, disk_gb := 2000,
      network_cards := ["eth0", "eth1", "eth2", "eth3"] }
  let location : LocationInfo :=
    { region := region, availability_zone := az, room := room,
      rack_id := rack, rack_position := position }
  let server : ServerDetails :=
    { server_id := srv_id,
      hostname := "server-" ++ region ++ "-" ++ az ++ "-" ++ room ++ "-" ++ padNum 4 n,
      status := status,
      ip_address := "10." ++ toString (lastCharOrd region) ++ "." ++
        toString (n / 256) ++ "." ++ toString (n % 256),
      hardware := hardware,
      location := location,
      created_at := now - 86400 * (randDays n : Int),
      updated_at := now - 3600 * (randHours n : Int),
      tags := [("env", "prod"), ("tier", "compute")] }
  let tor_switch := "sw-tor-" ++ padNum 3 ((n - 1) / 10 + 1)
  -- the forced fault scenario and the every-30th-server fault
  let (oob_status, oob_connected, oob_failure) :
      ConnectivityStatus × Bool × Option String :=
    if rack = "rack-A02" ∧ room = "room-01" then
      (.disconnected, false, some "机柜上联交换机端口故障")
    else if n % 30 = 0 then
      (.disconnected, false, some "BMC网卡故障")
    else
      (.connected, true, none)
  let topology : TopologyInfo :=
    { server_id := srv_id,
      region := region, availability_zone := az, room := room,
      rack_id := rack, rack_position := position,
      in_band_network :=
        { path := [srv_id, tor_switch, "sw-agg-" ++ region ++ "-" ++ az,
                   "sw-core-" ++ region],
          status := .connected },
      out_of_band_network :=
        { path := [srv_id ++ "-bmc", tor_switch ++ "-oob", "sw-oob-" ++ room,
                   "sw-oob-core"],
          status := oob_status,
          last_hop_reachable := if ¬oob_connected then some (tor_switch ++ "-oob") else none },
      uplink_switches := [tor_switch],
      in_band_connectivity := { is_connected := true, last_check_time := now },
      out_of_band_connectivity :=
        { is_connected := oob_connected, last_check_time := now,
          failure_reason := oob_failure } }
  let logsUpdate : List (String × List InstallationLog) :=
    if status = .install_failed then
      let start_time := now - 7200   -- timedelta(hours=2)
      let (logs, error_summary) : List LogEntry × String :=
        if n % 40 = 0 then
          ([{ timestamp := start_time, level := "INFO",
              message := "开始服务器安装流程", component := "installer" },
            { timestamp := start_time + 300, level := "ERROR",
              message := "磁盘检测失败: /dev/sda not found", component := "disk-check",
              details := some [("expected_disks", .int 4), ("found_disks", .int 3)] },
            { timestamp := start_time + 360, level := "ERROR",
              message := "硬件检查未通过，终止安装", component := "installer" }],
           "硬件故障：磁盘缺失")
        else if n % 60 = 0 then
          ([{ timestamp := start_time, level := "INFO",
              message := "开始服务器安装流程", component := "installer" },
            { timestamp := start_time + 600, level := "ERROR",
              message := "网络配置失败: DHCP请求超时", component := "network-setup",
              details := some [("interface", .str "eth0"), ("timeout", .int 30)] },
            { timestamp := start_time + 660, level := "ERROR",
              message := "无法获取IP地址，安装失败", component := "installer" }],
           "网络配置错误：DHCP失败")
        else
          ([{ timestamp := start_time, level := "INFO",
              message := "开始服务器安装流程", component := "installer" },
            { timestamp := start_time + 1200, level := "ERROR",
              message := "软件包安装失败: 依赖冲突", component := "package-installer",
              details := some [("package", .str "kernel-5.10"), ("conflict", .str "kernel-headers")] }],
           "软件配置错误：包依赖冲突")
      let install_log : InstallationLog :=
        { server_id := srv_id, start_time := start_time,
          end_time := some (start_time + 1800), status := "failed",
          logs := logs, error_summary := some error_summary }
      st.installation_logs ++ [(srv_id, [install_log])]
    else st.installation_logs
  let switches' :=
    updateAssoc tor_switch (fun sw =>
      { sw with
        connected_servers := sw.connected_servers ++ [srv_id],
        ports := modifyAt ((position - 1) % 48)
          (fun p => { p with connected_device := some srv_id }) sw.ports })
      st.switches
  { servers := st.servers ++ [(srv_id, server)],
    topologies := st.topologies ++ [(srv_id, topology)],
    switches := switches',
    installation_logs := logsUpdate }

/-- Python `init_mock_data`: build all switches, then iterate the same cross-product
creating 10 servers per rack with a running `server_id` counter. -/
def init_mock_data (now : Int) (randDays randHours : Nat → Nat) : Store :=
  let switches := rackCombos.enum.map (fun p => mkTorSwitch (p.1 + 1) p.2)
  let st0 : Store :=
    { servers := [], topologies := [], switches := switches,
      installation_logs := [] }
  (rackCombos.foldl (fun (acc : Store × Nat) combo =>
    (List.range 10).foldl (fun (acc2 : Store × Nat) k =>
      (serverBody now randDays randHours acc2.1 acc2.2 combo (k + 1),
       acc2.2 + 1)) acc) (st0, 1)).1

/-- The default mock store (entropy fixed; no claim reads the random
timestamps). -/
def initStore : Store := init_mock_data 0 (fun _ => 1) (fun _ => 1)

/-! ## Tool layer (`mock_mcp_server.py` query operations) -/

/-- The `location` sub-dict of a `list_servers` item (note the key names
`az`/`rack`/`position`, which differ from `get_server_details`). -/
structure ServerListLocation where
  region : String
  az : String
  room : String
  rack : String
  position : Nat
deriving DecidableEq, Repr

structure ServerListItem where
  server_id : String
  hostname : String
  status : String
  ip_address : String
  location : ServerListLocation
deriving DecidableEq, Repr

structure ListServersResult where
  total : Nat
  servers : List ServerListItem
deriving DecidableEq, Repr

/-- Skip condition of one `list_servers` filter: Python
`if flt and value != flt: continue` (a `None` or empty filter is falsy). -/
def filterSkip (flt : Option String) (value : String) : Bool :=
  match flt with
  | none => false
  | some f => f ≠ "" && value ≠ f

/-- Operation `list_servers` (the `datacenter` parameter is accepted but unused, as in
the source). -/
def list_servers (st : Store) (status datacenter region room rack : Option String) :
    ListServersResult :=
  let _ := datacenter
  let servers := (st.servers.filter (fun p =>
      let server := p.2
      ¬ (filterSkip status server.status.value ||
         filterSkip region server.location.region ||
         filterSkip room server.location.room ||
         filterSkip rack server.location.rack_id))).map (fun p =>
    let server := p.2
    { server_id := server.server_id,
      hostname := server.hostname,
      status := server.status.value,
      ip_address := server.ip_address,
      location :=
        { region := server.location.region,
          az := server.location.availability_zone,
          room := server.location.room,
          rack := server.location.rack_id,
          position := server.location.rack_position } : ServerListItem })
  { total := servers.length, servers := servers }

/-- The `location` sub-dict of `get_server_details` (keys
`availability_zone`, `rack_id`, `rack_position` — and no `rack` key, which
matters for the single-server rendering in `generate_response`). -/
structure LocationDict where
  region : String
  availability_zone : String
  room : String
  rack_id : String
  rack_position : Nat
deriving DecidableEq, Repr

structure ServerDetailsPayload where
  server_id : String
  hostname : String
  status : String
  ip_address : String
  hardware : HardwareInfo
  location : LocationDict
  created_at : String
  updated_at : String
  tags : List (String × String)
deriving DecidableEq, Repr

inductive ServerDetailsResult
  | ok (p : ServerDetailsPayload)
  | err (error : String) (available_ids : List String)
deriving DecidableEq, Repr

def get_server_details (st : Store) (server_id : String) : ServerDetailsResult :=
  match st.servers.lookup server_id with
  | none =>
    .err ("服务器 " ++ server_id ++ " 不存在")
      ((st.servers.map Prod.fst).take 5)
  | some server =>
    .ok
      { server_id := server.server_id,
        hostname := server.hostname,
        status := server.status.value,
        ip_address := server.ip_address,
        hardware := server.hardware,
        location :=
          { region := server.location.region,
            availability_zone := server.location.availability_zone,
            room := server.location.room,
            rack_id := server.location.rack_id,
            rack_position := server.location.rack_position },
        created_at := isoformat server.created_at,
        updated_at := isoformat server.updated_at,
        tags := server.tags }

structure InBandConnectivityDict where
  is_connected : Bool
  last_check : String
deriving DecidableEq, Repr

structure OobConnectivityDict where
  is_connected : Bool
  last_check : String
  failure_reason : Option String
deriving DecidableEq, Repr

structure InBandNetworkDict where
  path : List String
  status : String
  connectivity : InBandConnectivityDict
deriving DecidableEq, Repr

structure OobNetworkDict where
  path : List String
  status : String
  last_hop_reachable : Option String
  connectivity : OobConnectivityDict
deriving DecidableEq, Repr

structure ServerTopologyPayload where
  server_id : String
  location : LocationDict
  in_band_network : InBandNetworkDict
  out_of_band_network : OobNetworkDict
  uplink_switches : List String
deriving DecidableEq, Repr

inductive ServerTopologyResult
  | ok (p : ServerTopologyPayload)
  | err (error : String) (available_ids : List String)
deriving DecidableEq, Repr

def get_server_topology (st : Store) (server_id : String) : ServerTopologyResult :=
  match st.topologies.lookup server_id with
  | none =>
    .err ("服务器 " ++ server_id ++ " 的拓扑信息不存在")
      ((st.topologies.map Prod.fst).take 5)
  | some topology =>
    .ok
      { server_id := topology.server_id,
        location :=
          { region := topology.region,
            availability_zone := topology.availability_zone,
            room := topology.room,
            rack_id := topology.rack_id,
            rack_position := topology.rack_position },
        in_band_network :=
          { path := topology.in_band_network.path,
            status := topology.in_band_network.status.value,
            connectivity :=
              { is_connected := topology.in_band_connectivity.is_connected,
                last_check := isoformat topology.in_band_connectivity.last_check_time } },
        out_of_band_network :=
          { path := topology.out_of_band_network.path,
            status := topology.out_of_band_network.status.value,
            last_hop_reachable := topology.out_of_band_network.last_hop_reachable,
            connectivity :=
              { is_connected := topology.out_of_band_connectivity.is_connected,
                last_check := isoformat topology.out_of_band_connectivity.last_check_time,
                failure_reason := topology.out_of_band_connectivity.failure_reason } },
        uplink_switches := topology.uplink_switches }

structure RackServerInfo where
  server_id : String
  position : Nat
  in_band_connected : Bool
  out_of_band_connected : Bool
deriving DecidableEq, Repr

/-- The `get_rack_topology` success payload; `alert` and
`recommended_action` are conditionally-present keys. -/
structure RackAnalysis where
  rack_id : String
  total_servers : Nat
  in_band_connected : Nat
  out_of_band_connected : Nat
  servers : List RackServerInfo
  alert : Option String := none
  recommended_action : Option String := none
deriving DecidableEq, Repr

inductive RackTopologyResult
  | ok (a : RackAnalysis)
  | err (error : String) (available_racks : List String)
deriving DecidableEq, Repr

def get_rack_topology (st : Store) (rack_id : String) : RackTopologyResult :=
  let inRack := st.topologies.filter (fun p => p.2.rack_id = rack_id)
  let rack_servers := inRack.map (fun p =>
    { server_id := p.1,
      position := p.2.rack_position,
      in_band_connected := p.2.in_band_connectivity.is_connected,
      out_of_band_connected := p.2.out_of_band_connectivity.is_connected : RackServerInfo })
  let ib_connected_count := (inRack.filter (fun p => p.2.in_band_connectivity.is_connected)).length
  let oob_connected_count := (inRack.filter (fun p => p.2.out_of_band_connectivity.is_connected)).length
  if rack_servers.isEmpty then
    .err ("机柜 " ++ rack_id ++ " 不存在或没有服务器")
      ((dedupFirst (st.topologies.map (fun p => p.2.rack_id))).take 5)
  else
    let total_servers := rack_servers.length
    -- `oob_failure_rate > 0.8` with `rate = 1 - oob/total`, exactly:
    -- (total - oob) / total > 4/5  ⟺  5 * (total - oob) > 4 * total
    let alertFires := 5 * (total_servers - oob_connected_count) > 4 * total_servers
    .ok
      { rack_id := rack_id,
        total_servers := total_servers,
        in_band_connected := ib_connected_count,
        out_of_band_connected := oob_connected_count,
        servers := sortedBy RackServerInfo.position rack_servers,
        alert := if alertFires then some "机柜带外网络大面积故障，可能是上联交换机问题" else none,
        recommended_action := if alertFires then some "检查机柜带外网络上联交换机" else none }

structure SwitchLocationDict where
  region : String
  availability_zone : String
  room : String
  rack_id : String
deriving DecidableEq, Repr

structure PortSummary where
  total : Nat
  up : Nat
  down : Nat
deriving DecidableEq, Repr

structure SwitchInfoPayload where
  switch_id : String
  name : String
  model : String
  status : String
  location : SwitchLocationDict
  port_summary : PortSummary
  connected_servers : List String
  uplink_switch : Option String
deriving DecidableEq, Repr

inductive SwitchInfoResult
  | ok (p : SwitchInfoPayload)
  | err (error : String) (available_ids : List String)
deriving DecidableEq, Repr

def get_switch_info (st : Store) (switch_id : String) : SwitchInfoResult :=
  match st.switches.lookup switch_id with
  | none =>
    .err ("交换机 " ++ switch_id ++ " 不存在")
      ((st.switches.map Prod.fst).take 5)
  | some switch =>
    let ports_up := (switch.ports.filter (fun p => p.status = "up")).length
    let ports_down := (switch.ports.filter (fun p => p.status = "down")).length
    .ok
      { switch_id := switch.switch_id,
        name := switch.name,
        model := switch.model,
        status := switch.status,
        location :=
          { region := switch.location.region,
            availability_zone := switch.location.availability_zone,
            room := switch.location.room,
            rack_id := switch.location.rack_id },
        port_summary :=
          { total := switch.ports.length, up := ports_up, down := ports_down },
        connected_servers := switch.connected_servers,
        uplink_switch := switch.uplink_switch }

structure LogEntryDict where
  timestamp : String
  level : String
  message : String
  component : String
  details : Option (List (String × PyVal))
deriving DecidableEq, Repr

structure InstallationDict where
  start_time : String
  end_time : Option String
  status : String
  error_summary : Option String
  logs : List LogEntryDict
deriving DecidableEq, Repr

inductive InstallationLogsResult
  /-- Payload `{error}`: the server id is absent from the server registry. -/
  | err (error : String)
  /-- Payload `{server_id, message, server_status}`: server exists but has no logs. -/
  | noLogs (server_id : String) (message : String) (server_status : String)
  /-- Payload `{server_id, installation}`: the latest installation log. -/
  | ok (server_id : String) (installation : InstallationDict)
  /-- Payload `{server_id, message}`: a (hypothetical) empty log list. -/
  | emptyLogs (server_id : String) (message : String)
deriving DecidableEq, Repr

def get_installation_logs (st : Store) (server_id : String)
    (start_time end_time : Option String) : InstallationLogsResult :=
  let _ := (start_time, end_time)   -- accepted but unused, as in the source
  match st.installation_logs.lookup server_id with
  | none =>
    match st.servers.lookup server_id with
    | none => .err ("服务器 " ++ server_id ++ " 不存在")
    | some server =>
      .noLogs server_id "该服务器没有安装日志" server.status.value
  | some logs =>
    match logs.getLast? with
    | some latest_log =>
      .ok server_id
        { start_time := isoformat latest_log.start_time,
          end_time := latest_log.end_time.map isoformat,
          status := latest_log.status,
          error_summary := latest_log.error_summary,
          logs := latest_log.logs.map (fun log =>
            { timestamp := isoformat log.timestamp,
              level := log.level,
              message := log.message,
              component := log.component,
              details := log.details }) }
    | none => .emptyLogs server_id "没有找到安装日志"

structure NetworkStatusDict where
  in_band : String
  out_of_band : String
deriving DecidableEq, Repr

structure UplinkSwitchDict where
  switch_id : String
  status : String
deriving DecidableEq, Repr

structure DiagnosisDict where
  root_cause : String
  confidence : String
  recommendations : List String
  next_steps : List String
deriving DecidableEq, Repr

/-- The `analysis` dict returned by `analyze_installation_failure` for an
install-failed server; `Option` fields are the conditionally-written keys.
`error_summary` carries the key-present / value-`None` distinction. -/
structure FailureAnalysis where
  server_id : String
  analysis_time : String
  server_status : String
  error_summary : Option (Option String) := none
  error_count : Option Nat := none
  first_error : Option (Option String) := none
  network_status : Option NetworkStatusDict := none
  oob_failure_reason : Option String := none
  uplink_switch : Option UplinkSwitchDict := none
  diagnosis : DiagnosisDict
deriving DecidableEq, Repr

inductive AnalyzeResult
  /-- Payload `{error}`: server id absent. -/
  | err (error : String)
  /-- Payload `{server_id, message}`: server not in install-failed state (no
  `diagnosis` key in this payload). -/
  | notFailed (server_id : String) (message : String)
  | ok (a : FailureAnalysis)
deriving DecidableEq, Repr

/-- The root-cause / recommendations cascade over the log error-summary
(`analyze_installation_failure` step 5): substring-match against the three
canned category markers; no match leaves `("未知", [])`. -/
def logDiagnosis (es : String) : String × List String :=
  if strContains es "硬件故障" then
    ("硬件故障",
     ["联系硬件供应商更换故障部件",
      "执行硬件诊断测试确认具体故障组件",
      "检查服务器硬件兼容性列表"])
  else if strContains es "网络配置错误" then
    ("网络配置问题",
     ["检查DHCP服务器配置和可用性",
      "验证网络VLAN配置是否正确",
      "检查交换机端口配置",
      "确认网线连接正常"])
  else if strContains es "软件配置错误" then
    ("软件依赖问题",
     ["更新软件仓库源",
      "检查软件包版本兼容性",
      "清理软件包缓存后重试",
      "使用备用软件源"])
  else
    ("未知", [])

/-- Operation `analyze_installation_failure`.  Here `now` models the call-time
`datetime.now()` stamped into `analysis_time`.  Returns `none` for the
uncaught Python exceptions: the `TypeError` of a substring test on a `None`
`error_summary`, and the `KeyError` of reading `recommended_action` when it
is absent (unreachable against `get_rack_topology` outputs). -/
def analyze_installation_failure (st : Store) (now : Int) (server_id : String) :
    Option AnalyzeResult :=
  let analysis_time := isoformat now
  -- 1. server status
  match st.servers.lookup server_id with
  | none => some (.err ("服务器 " ++ server_id ++ " 不存在"))
  | some server =>
    if server.status ≠ .install_failed then
      some (.notFailed server_id
        ("服务器当前状态为 " ++ server.status.value ++ "，不是安装失败状态"))
    else
      -- 2. installation log
      let latestOpt : Option InstallationLog :=
        match st.installation_logs.lookup server_id with
        | some logs => logs.getLast?   -- `if install_logs:` (empty list falsy)
        | none => none
      let error_summary : Option (Option String) :=
        latestOpt.map (fun latest => latest.error_summary)
      let error_count : Option Nat :=
        latestOpt.map (fun latest =>
          (latest.logs.filter (fun log => log.level = "ERROR")).length)
      let first_error : Option (Option String) :=
        latestOpt.map (fun latest =>
          ((latest.logs.filter (fun log => log.level = "ERROR")).head?).map
            LogEntry.message)
      -- 3. network topology
      let topologyOpt := st.topologies.lookup server_id
      let network_status : Option NetworkStatusDict :=
        topologyOpt.map (fun topology =>
          { in_band := if topology.in_band_connectivity.is_connected then "connected" else "disconnected",
            out_of_band := if topology.out_of_band_connectivity.is_connected then "connected" else "disconnected" })
      let oob_failure_reason : Option String :=
        match topologyOpt with
        | some topology =>
          if pyTruthy topology.out_of_band_connectivity.failure_reason then
            topology.out_of_band_connectivity.failure_reason
          else none
        | none => none
      -- 4. uplink switch
      let uplink_switch : Option UplinkSwitchDict :=
        match topologyOpt with
        | some topology =>
          match topology.uplink_switches.head? with
          | some switch_id =>
            match st.switches.lookup switch_id with
            | some switch => some { switch_id := switch_id, status := switch.status }
            | none => none
          | none => none
        | none => none
      -- 5. diagnosis: substring cascade over the error summary
      let step5 : Option (String × List String) :=
        match error_summary with
        | some none => none      -- TypeError: `"硬件故障" in None`
        | some (some es) => some (logDiagnosis es)
        | none => some ("未知", [])
      match step5 with
      | none => none
      | some (root_cause₀, recommendations₀) =>
        -- batch-failure check against the rack aggregate
        let step6 : Option (String × List String) :=
          match topologyOpt with
          | some topology =>
            match get_rack_topology st topology.rack_id with
            | .ok rack_analysis =>
              match rack_analysis.alert with
              | some alert =>
                match rack_analysis.recommended_action with
                | some action =>
                  some ("可能是基础设施问题",
                    ("注意：" ++ alert) :: action :: recommendations₀)
                | none => none   -- KeyError on `recommended_action`
              | none => some (root_cause₀, recommendations₀)
            | .err _ _ => some (root_cause₀, recommendations₀)
          | none => some (root_cause₀, recommendations₀)
        match step6 with
        | none => none
        | some (root_cause, recommendations) =>
          some (.ok
            { server_id := server_id,
              analysis_time := analysis_time,
              server_status := server.status.value,
              error_summary := error_summary,
              error_count := error_count,
              first_error := first_error,
              network_status := network_status,
              oob_failure_reason := oob_failure_reason,
              uplink_switch := uplink_switch,
              diagnosis :=
                { root_cause := root_cause,
                  confidence := if recommendations.isEmpty then "low" else "high",
                  recommendations := recommendations,
                  next_steps :=
                    ["执行建议的修复操作", "重新尝试安装", "如果问题持续，联系技术支持"] } })

/-- The LangChain tool wrapper: `MockMCPClient.call_tool` catches any
exception raised by the mock function and returns `{"error": str(e)}`. -/
def analyze_installation_failure_tool (st : Store) (now : Int) (server_id : String) :
    AnalyzeResult :=
  match analyze_installation_failure st now server_id with
  | some r => r
  | none => .err "TypeError"

/-! ## Query analyzer (`workflow.analyze_query`)

The three entity patterns are simple enough that Python's leftmost-first
backtracking regex search reduces to: scan positions left to right and at
each position try the alternatives in order with maximal-munch character
runs (no alternative needs backtracking, because a run of word / digit /
alphanumeric characters can never be followed by one of its own members
after shrinking). -/

/-- Case-insensitive literal match (`re.IGNORECASE`): the pattern is given
lowercase, the subject keeps its case. -/
def ciHasPfx : List Char → List Char → Bool
  | [], _ => true
  | _ :: _, [] => false
  | a :: as, b :: bs => a == b.toLower && ciHasPfx as bs

/-- Python `\w` (`[a-zA-Z0-9_]` plus non-ASCII word characters; non-ASCII is
approximated as "any character of code ≥ 128", which agrees with Python on
every character the data and queries of this repository use). -/
def isWordChar (c : Char) : Bool :=
  c.isAlphanum || c = '_' || c.val ≥ 128

/-- Pattern `srv-\d+|server-\d+` at one position (case-insensitive, greedy digits);
returns the matched characters of the original text. -/
def tryServerAt (cs : List Char) : Option (List Char) :=
  if ciHasPfx "srv-".data cs then
    let ds := (cs.drop 4).takeWhile Char.isDigit
    if ds.isEmpty then none else some (cs.take 4 ++ ds)
  else if ciHasPfx "server-".data cs then
    let ds := (cs.drop 7).takeWhile Char.isDigit
    if ds.isEmpty then none else some (cs.take 7 ++ ds)
  else none

/-- Pattern `rack-[a-zA-Z0-9]+` at one position (case-sensitive). -/
def tryRackAt (cs : List Char) : Option (List Char) :=
  if hasPfx "rack-".data cs then
    let run := (cs.drop 5).takeWhile Char.isAlphanum
    if run.isEmpty then none else some (cs.take 5 ++ run)
  else none

/-- Pattern `机柜([a-zA-Z0-9]+)` at one position; returns capture group 1. -/
def tryJiguiAt (cs : List Char) : Option (List Char) :=
  if hasPfx "机柜".data cs then
    let run := (cs.drop 2).takeWhile Char.isAlphanum
    if run.isEmpty then none else some run
  else none

/-- Pattern `sw-\w+-\d+|switch-\w+` at one position (case-insensitive). -/
def trySwitchAt (cs : List Char) : Option (List Char) :=
  let alt1 :=
    if ciHasPfx "sw-".data cs then
      let w := (cs.drop 3).takeWhile isWordChar
      if w.isEmpty then none
      else
        let rest := cs.drop (3 + w.length)
        match rest with
        | '-' :: tl =>
          let ds := tl.takeWhile Char.isDigit
          if ds.isEmpty then none
          else some (cs.take (3 + w.length) ++ '-' :: ds)
        | _ => none
    else none
  match alt1 with
  | some r => some r
  | none =>
    if ciHasPfx "switch-".data cs then
      let w := (cs.drop 7).takeWhile isWordChar
      if w.isEmpty then none else some (cs.take 7 ++ w)
    else none

/-- Python `re.search`: try the pattern at each position, leftmost match wins
(including the empty suffix, as `re.search` does). -/
def findTok (f : List Char → Option (List Char)) : List Char → Option (List Char)
  | [] => f []
  | c :: t =>
    match f (c :: t) with
    | some r => some r
    | none => findTok f t

/-! ### Workflow state (`state.py`) -/

inductive QueryIntent
  | server_info | server_topology | switch_info | installation_log
  | fault_diagnosis | rack_analysis | unknown
deriving DecidableEq, Repr

def QueryIntent.value : QueryIntent → String
  | .server_info => "server_info"
  | .server_topology => "server_topology"
  | .switch_info => "switch_info"
  | .installation_log => "installation_log"
  | .fault_diagnosis => "fault_diagnosis"
  | .rack_analysis => "rack_analysis"
  | .unknown => "unknown"

structure QueryEntities where
  server_id : Option String := none
  rack_id : Option String := none
  switch_id : Option String := none
deriving DecidableEq, Repr

structure QueryFilters where
  status : Option String := none
deriving DecidableEq, Repr

structure QueryAnalysis where
  intent : QueryIntent
  entities : QueryEntities := {}
  filters : QueryFilters := {}
  confidence : ℚ := 0.0
deriving DecidableEq, Repr

/-- The three entity-extraction passes of `analyze_query` (lines 32–51 of
`workflow.py`): server id then rack id then switch id, each over the
original query text. -/
def extractEntities (user_query : String) : QueryEntities :=
  let user_query_lower := lowerStr user_query
  -- server id (original query, case preserved)
  let entities₁ : QueryEntities :=
    match findTok tryServerAt user_query.data with
    | some t => { server_id := some (String.mk t) }
    | none => {}
  -- rack id
  let entities₂ : QueryEntities :=
    if strContains user_query_lower "rack-" then
      match findTok tryRackAt user_query.data with
      | some t => { entities₁ with rack_id := some (String.mk t) }
      | none => entities₁
    else if strContains user_query "机柜" then
      match findTok tryJiguiAt user_query.data with
      | some run => { entities₁ with rack_id := some ("rack-" ++ String.mk run) }
      | none => entities₁
    else entities₁
  -- switch id
  match findTok trySwitchAt user_query.data with
  | some t => { entities₂ with switch_id := some (String.mk t) }
  | none => entities₂

/-- The pure classification core of `analyze_query` (lines 23–89 of
`workflow.py`): entity extraction then the ordered keyword cascade. -/
def classifyQuery (user_query : String) : QueryAnalysis :=
  let user_query_lower := lowerStr user_query
  let entities : QueryEntities := extractEntities user_query
  let kw (keywords : List String) : Bool :=
    keywords.any (fun k => strContains user_query_lower k)
  if kw ["安装失败", "装机失败", "失败原因", "故障诊断", "分析失败"] then
    { intent := .fault_diagnosis, entities := entities, confidence := 0.95 }
  else if kw ["装机日志", "安装日志", "日志"] then
    { intent := .installation_log, entities := entities, confidence := 0.9 }
  else if kw ["拓扑", "网络连接", "连通性", "带内", "带外"] then
    { intent := if strContains user_query_lower "机柜" || strContains user_query_lower "rack"
                then .rack_analysis else .server_topology,
      entities := entities, confidence := 0.9 }
  else if kw ["交换机", "switch"] then
    { intent := .switch_info, entities := entities, confidence := 0.9 }
  else if kw ["服务器列表", "所有服务器", "查询服务器", "查看服务器", "显示服务器", "查看"]
      && strContains user_query_lower "服务器" then
    let filters : QueryFilters :=
      if strContains user_query_lower "在线" || strContains user_query_lower "online" then
        { status := some "online" }
      else if strContains user_query_lower "离线" || strContains user_query_lower "offline" then
        { status := some "offline" }
      else if strContains user_query_lower "故障" || strContains user_query_lower "failed" then
        { status := some "install_failed" }
      else {}
    { intent := .server_info, entities := entities, filters := filters, confidence := 0.85 }
  else if pyTruthy entities.server_id then
    -- `elif entities.get("server_id"):` (truthiness; a match is never empty)
    { intent := .server_info, entities := entities, confidence := 0.8 }
  else
    { intent := .unknown, entities := entities, confidence := 0.0 }

/-! ## Workflow orchestrator (`workflow.py`, `state.py`, `agent.py`) -/

structure DiagnosisResult where
  /-- Field `root_cause` is typed `str` but `analyze_fault` can assign it a
  Python `None` (a `None` log `error_summary`), hence `Option`. -/
  root_cause : Option String
  confidence : String
  recommendations : List String
  next_steps : List String
  related_issues : List String := []   -- default-empty, never populated
deriving DecidableEq, Repr

/-- One `execution_history` entry; `result` and `intent` are the keys only
some stages write. -/
structure HistoryEntry where
  step : String
  timestamp : String
  result : Option String := none
  intent : Option String := none
deriving DecidableEq, Repr

/-- The `server_info` slot holds whichever dict the dispatched tool
returned: a server list or a single-server details payload. -/
inductive ServerInfoSlot
  | list (r : ListServersResult)
  | details (r : ServerDetailsResult)
deriving DecidableEq, Repr

/-- The `topology_info` slot holds a per-server or a rack-level payload
depending on the intent. -/
inductive TopologySlot
  | server (r : ServerTopologyResult)
  | rack (r : RackTopologyResult)
deriving DecidableEq, Repr

structure AgentState where
  user_query : String
  query_analysis : Option QueryAnalysis := none
  server_info : Option ServerInfoSlot := none
  topology_info : Option TopologySlot := none
  switch_info : Option SwitchInfoResult := none
  installation_logs : Option InstallationLogsResult := none
  rack_servers : Option (List RackServerInfo) := none
  affected_servers : Option (List String) := none
  diagnosis : Option DiagnosisResult := none
  response : Option String := none
  execution_history : List HistoryEntry := []
  error : Option String := none
  timestamp : Int := 0
  execution_time : Option Int := none
deriving DecidableEq, Repr

/-- Rendering of the five float confidence constants inside the
`analyze_query` history f-string (Python float `repr`). -/
def confRepr (q : ℚ) : String :=
  if q = 0.95 then "0.95"
  else if q = 0.9 then "0.9"
  else if q = 0.85 then "0.85"
  else if q = 0.8 then "0.8"
  else "0.0"

/-- Stage 1, `analyze_query`: classify the query, store the analysis,
append one history entry.  `now` is the stage's `datetime.now()`. -/
def analyze_query (now : Int) (state : AgentState) : AgentState :=
  let qa := classifyQuery state.user_query
  { state with
    query_analysis := some qa,
    execution_history := state.execution_history ++
      [{ step := "analyze_query",
         timestamp := isoformat now,
         result := some ("Intent: " ++ qa.intent.value ++ ", Confidence: " ++
           confRepr qa.confidence) }] }

/-- Stage 2, `fetch_data`: dispatch on the intent to the tool layer and
populate the matching slots; append one history entry.  (The `try/except`
of the source can only fire through the `analyze_installation_failure`
`TypeError`, which `MockMCPClient` already converts to an error payload, so
no exception reaches this stage's handler in the embedding.) -/
def fetch_data (store : Store) (now : Int) (state : AgentState) : AgentState :=
  match state.query_analysis with
  | none => { state with error := some "查询分析失败" }
  | some analysis =>
    let state :=
      match analysis.intent with
      | .server_info =>
        match analysis.entities.server_id with
        | some sid =>
          { state with server_info := some (.details (get_server_details store sid)) }
        | none =>
          { state with server_info := some (.list
              (list_servers store analysis.filters.status none none none none)) }
      | .server_topology =>
        match analysis.entities.server_id with
        | some sid =>
          { state with topology_info := some (.server (get_server_topology store sid)) }
        | none => state
      | .rack_analysis =>
        match analysis.entities.rack_id with
        | some rid =>
          { state with topology_info := some (.rack (get_rack_topology store rid)) }
        | none => state
      | .switch_info =>
        match analysis.entities.switch_id with
        | some swid =>
          { state with switch_info := some (get_switch_info store swid) }
        | none => state
      | .installation_log =>
        match analysis.entities.server_id with
        | some sid =>
          { state with installation_logs := some (get_installation_logs store sid none none) }
        | none => state
      | .fault_diagnosis =>
        match analysis.entities.server_id with
        | some sid =>
          let result := analyze_installation_failure_tool store now sid
          let state :=
            match result with
            | .ok a =>
              { state with diagnosis := some (
                  { root_cause := some a.diagnosis.root_cause,
                    confidence := a.diagnosis.confidence,
                    recommendations := a.diagnosis.recommendations,
                    next_steps := a.diagnosis.next_steps }) }
            | _ => state
          { state with
            server_info := some (.details (get_server_details store sid)),
            topology_info := some (.server (get_server_topology store sid)),
            installation_logs := some (get_installation_logs store sid none none) }
        | none => state
      | .unknown => state
    { state with execution_history := state.execution_history ++
        [{ step := "fetch_data",
           timestamp := isoformat now,
           intent := some analysis.intent.value }] }

/-- Stage 3, `analyze_fault`: fallback diagnosis from the already-fetched
slots; appends nothing to the execution history. -/
def analyze_fault (state : AgentState) : AgentState :=
  let condition : Bool :=
    match state.query_analysis with
    | some analysis =>
      decide (analysis.intent = .fault_diagnosis) && decide (state.diagnosis = none)
    | none => false
  if condition then
    -- topology check
    let (recommendations, root_cause₁) : List String × Option String :=
      match state.topology_info with
      | some (.server (.ok topo)) =>
        -- `"out_of_band_network" in topo` holds only for this payload shape
        if topo.out_of_band_network.connectivity.is_connected = false then
          (["检查带外网络连接"],
           if pyTruthy topo.out_of_band_network.connectivity.failure_reason then
             topo.out_of_band_network.connectivity.failure_reason
           else some "需要进一步分析")
        else ([], some "需要进一步分析")
      | _ => ([], some "需要进一步分析")
    -- installation-log check: the `error_summary` key is always present in
    -- an `installation` payload, and its raw value (possibly `None`)
    -- overwrites `root_cause`
    let root_cause : Option String :=
      match state.installation_logs with
      | some (.ok _ installation) => installation.error_summary
      | _ => root_cause₁
    { state with diagnosis := some (
        { root_cause := root_cause,
          confidence := "medium",
          recommendations := if recommendations.isEmpty then ["请联系技术支持"] else recommendations,
          next_steps := ["收集更多日志", "检查硬件状态"] }) }
  else state

/-- Python `enumerate(l, 1)` rendered as numbered lines. -/
def enumerate1 (l : List String) : List String :=
  l.enum.map (fun p => toString (p.1 + 1) ++ ". " ++ p.2)

/-- Stage 4, `generate_response`: render the response purely from the
state, then append one history entry.  Returns `none` where the source
raises an uncaught `KeyError`: reading `info['location']['rack']` in the
single-server digest (the `get_server_details` payload only has a
`rack_id` key), or reading payload keys that an error payload / a payload
of the other topology flavour does not carry. -/
def generate_response (now : Int) (state : AgentState) : Option AgentState :=
  if pyTruthy state.error then
    some { state with
      response := some ("抱歉，处理您的请求时出现错误：" ++ pyShowOptStr state.error) }
  else
    match state.query_analysis with
    | none => some { state with response := some "抱歉，我无法理解您的查询意图。" }
    | some analysis =>
      let response_parts? : Option (List String) :=
        match analysis.intent with
        | .server_info =>
          match state.server_info with
          | none => some []
          | some (.list info) =>
            some (("找到 " ++ toString info.total ++ " 台服务器：") ::
              ((info.servers.take 10).map (fun server =>
                "- " ++ server.server_id ++ " (" ++ server.hostname ++ "): " ++
                "状态=" ++ server.status ++ ", " ++
                "位置=" ++ server.location.room ++ "/" ++ server.location.rack)) ++
              (if info.total > 10 then
                ["... 还有 " ++ toString (info.total - 10) ++ " 台服务器"] else []))
          | some (.details (.ok _)) => none      -- KeyError: location['rack']
          | some (.details (.err _ _)) => none   -- KeyError: ['server_id']
        | .server_topology =>
          match state.topology_info with
          | none => some []
          | some (.server (.ok topo)) =>
            some (["服务器 " ++ topo.server_id ++ " 网络拓扑：",
                   "\n带内网络:",
                   "- 路径: " ++ String.intercalate " → " topo.in_band_network.path,
                   "- 状态: " ++ topo.in_band_network.status,
                   "\n带外网络:",
                   "- 路径: " ++ String.intercalate " → " topo.out_of_band_network.path,
                   "- 状态: " ++ topo.out_of_band_network.status] ++
              (if pyTruthy topo.out_of_band_network.connectivity.failure_reason then
                ["- 故障原因: " ++ pyShowOptStr topo.out_of_band_network.connectivity.failure_reason]
               else []))
          | some (.server (.err _ _)) => none    -- KeyError: ['server_id']
          | some (.rack _) => none               -- KeyError: ['server_id']
        | .rack_analysis =>
          match state.topology_info with
          | none => some []
          | some (.rack (.ok rack)) =>
            let base :=
              ["机柜 " ++ rack.rack_id ++ " 分析：",
               "- 服务器总数: " ++ toString rack.total_servers,
               "- 带内网络正常: " ++ toString rack.in_band_connected,
               "- 带外网络正常: " ++ toString rack.out_of_band_connected]
            match rack.alert with
            | some alert =>
              match rack.recommended_action with
              | some action =>
                some (base ++ ["\n⚠️ 告警: " ++ alert, "建议操作: " ++ action])
              | none => none                     -- KeyError: ['recommended_action']
            | none => some base
          | some (.rack (.err _ _)) => none      -- KeyError: ['rack_id']
          | some (.server _) => none             -- KeyError: ['rack_id']
        | .fault_diagnosis =>
          match state.diagnosis with
          | none => some []
          | some diag =>
            some (["故障诊断结果：",
                   "\n根本原因: " ++ pyShowOptStr diag.root_cause,
                   "置信度: " ++ diag.confidence,
                   "\n建议措施:"] ++
              enumerate1 diag.recommendations ++
              ["\n后续步骤:"] ++
              enumerate1 diag.next_steps)
        | .installation_log =>
          match state.installation_logs with
          | none => some []
          | some (.ok sid inst) =>
            some (["服务器 " ++ sid ++ " 安装日志：",
                   "- 状态: " ++ inst.status,
                   "- 开始时间: " ++ inst.start_time] ++
              (if pyTruthy inst.error_summary then
                ["- 错误摘要: " ++ pyShowOptStr inst.error_summary] else []) ++
              ["\n日志详情:"] ++
              (lastN 5 inst.logs).map (fun log =>
                "[" ++ log.timestamp ++ "] " ++ log.level ++ ": " ++ log.message))
          | some (.noLogs _ message _) => some [message]
          | some (.emptyLogs _ message) => some [message]
          | some (.err _) => some ["没有找到安装日志"]  -- `.get("message", default)`
        | .switch_info =>
          match state.switch_info with
          | none => some []
          | some (.ok switch) =>
            some ["交换机 " ++ switch.switch_id ++ " 信息：",
                  "- 名称: " ++ switch.name,
                  "- 型号: " ++ switch.model,
                  "- 状态: " ++ switch.status,
                  "- 端口状态: " ++ toString switch.port_summary.up ++ "/" ++
                    toString switch.port_summary.total ++ " UP",
                  "- 连接服务器数: " ++ toString switch.connected_servers.length]
          | some (.err _ _) => none              -- KeyError: ['switch_id']
        | .unknown => some ["抱歉，我无法处理您的查询。"]
      match response_parts? with
      | none => none
      | some response_parts =>
        some { state with
          response := some (String.intercalate "\n" response_parts),
          execution_history := state.execution_history ++
            [{ step := "generate_response", timestamp := isoformat now }] }

/-- Predicate `should_analyze_fault`: the conditional-edge predicate, returning node
names as strings (as in the source). -/
def should_analyze_fault (state : AgentState) : String :=
  let go : Bool :=
    match state.query_analysis with
    | some analysis =>
      decide (analysis.intent = .fault_diagnosis) && decide (state.diagnosis = none)
    | none => false
  if go then "analyze_fault" else "generate_response"

/-- The graph nodes of `create_workflow` plus the `END` sentinel. -/
inductive Node
  | analyze_query | fetch_data | analyze_fault | generate_response | terminal
deriving DecidableEq, Repr

/-- The branch mapping of `add_conditional_edges` (both labels map to the
equally-named node). -/
def conditionalBranch (label : String) : Node :=
  if label = "analyze_fault" then .analyze_fault
  else if label = "generate_response" then .generate_response
  else .terminal

/-- The edge relation of the compiled graph: `analyze_query → fetch_data`,
the conditional edge after `fetch_data`, `analyze_fault →
generate_response`, `generate_response → END`. -/
def nextNode : Node → AgentState → Node
  | .analyze_query, _ => .fetch_data
  | .fetch_data, state => conditionalBranch (should_analyze_fault state)
  | .analyze_fault, _ => .generate_response
  | .generate_response, _ => .terminal
  | .terminal, _ => .terminal

/-- Run one node's stage function (`nowA`/`nowF`/`nowG` model the clock
readings inside the three history-stamping stages). -/
def runNode (store : Store) (nowA nowF nowG : Int) :
    Node → AgentState → Option AgentState
  | .analyze_query, state => some (analyze_query nowA state)
  | .fetch_data, state => some (fetch_data store nowF state)
  | .analyze_fault, state => some (analyze_fault state)
  | .generate_response, state => generate_response nowG state
  | .terminal, state => some state

/-- Fuel-bounded graph interpreter (the graph has no cycles; fuel 5 always
reaches `END`). -/
def runFrom (store : Store) (nowA nowF nowG : Int) :
    Nat → Node → AgentState → Option AgentState
  | 0, _, state => some state
  | _, .terminal, state => some state
  | fuel + 1, node, state =>
    match runNode store nowA nowF nowG node state with
    | none => none
    | some state' => runFrom store nowA nowF nowG fuel (nextNode node state') state'

/-- The initial state built by `CZAgent.process_query`. -/
def initialState (query : String) (t₀ : Int) : AgentState :=
  { user_query := query, timestamp := t₀ }

/-- One full workflow invocation on a query. -/
def runWorkflow (store : Store) (nowA nowF nowG : Int) (query : String)
    (t₀ : Int) : Option AgentState :=
  runFrom store nowA nowF nowG 5 .analyze_query (initialState query t₀)

/-! ## Verification fixtures (projection helpers and concrete inputs) -/

/-- The success payload of a `get_rack_topology` result, if any. -/
def rackOkPart : RackTopologyResult → Option RackAnalysis
  | .ok a => some a
  | .err _ _ => none

/-- A concrete state (analysis present, no error) exercising the
hypotheses of the history-append theorem. -/
def c3State : AgentState :=
  { user_query := "q", query_analysis := some { intent := .unknown } }

/-- Mask the call-time `analysis_time` stamp of an analysis payload. -/
def stripAnalysisTime : AnalyzeResult → AnalyzeResult
  | .ok a => .ok { a with analysis_time := "" }
  | r => r

/-- A topology payload with a disconnected out-of-band path and a non-null
failure reason, for exercising `analyze_fault`. -/
def c2Topo : ServerTopologyPayload :=
  { server_id := "s1",
    location := { region := "r", availability_zone := "a", room := "m",
                  rack_id := "rk", rack_position := 1 },
    in_band_network :=
      { path := ["s1"], status := "connected",
        connectivity := { is_connected := true, last_check := "0" } },
    out_of_band_network :=
      { path := ["s1-bmc"], status := "disconnected", last_hop_reachable := none,
        connectivity := { is_connected := false, last_check := "0",
                          failure_reason := some "oob-reason" } },
    uplink_switches := [] }

/-- An installation payload carrying an error summary, for exercising
`analyze_fault`. -/
def c2Inst : InstallationDict :=
  { start_time := "0", end_time := none, status := "failed",
    error_summary := some "log-summary", logs := [] }

/-- A state entering `analyze_fault` with both an out-of-band failure
reason and a log error summary present. -/
def c2State : AgentState :=
  { user_query := "q",
    query_analysis := some { intent := .fault_diagnosis },
    topology_info := some (.server (.ok c2Topo)),
    installation_logs := some (.ok "s1" c2Inst) }

/-- The record the default store holds for srv-0001 (the first generated
server: cn-north / az1 / room-01 / rack-A01 / position 1, online). -/
def srv0001 : ServerDetails :=
  { server_id := "srv-0001",
    hostname := "server-cn-north-az1-room-01-0001",
    status := .online,
    ip_address := "10.104.0.1",
    hardware :=
      { cpu_model := "Intel Xeon Gold 6248R", cpu_cores := 48, memory_gb := 256,
        disk_gb := 2000, network_cards := ["eth0", "eth1", "eth2", "eth3"] },
    location :=
      { region := "cn-north", availability_zone := "az1", room := "room-01",
        rack_id := "rack-A01", rack_position := 1 },
    created_at := -86400,
    updated_at := -3600,
    tags := [("env", "prod"), ("tier", "compute")] }

/-- Hardware fixture for a one-server store. -/
def c5Hw : HardwareInfo :=
  { cpu_model := "c", cpu_cores := 1, memory_gb := 1, disk_gb := 1,
    network_cards := [] }

/-- An install-failed server in a one-server store. -/
def c5Server : ServerDetails :=
  { server_id := "s1", hostname := "h", status := .install_failed,
    ip_address := "i", hardware := c5Hw,
    location := { region := "r", availability_zone := "a", room := "m",
                  rack_id := "rk", rack_position := 1 },
    created_at := 0, updated_at := 0, tags := [] }

/-- Its installation log, classified as a hardware fault by the summary. -/
def c5Log : InstallationLog :=
  { server_id := "s1", start_time := 0, end_time := none, status := "failed",
    logs := [], error_summary := some "硬件故障：x" }

/-- Its topology: out-of-band down, so its one-server rack has failure
rate 1 and the rack alert fires. -/
def c5Topology : TopologyInfo :=
  { server_id := "s1", region := "r", availability_zone := "a", room := "m",
    rack_id := "rk", rack_position := 1,
    in_band_network := { path := [], status := .connected },
    out_of_band_network := { path := [], status := .disconnected },
    uplink_switches := [],
    in_band_connectivity := { is_connected := true, last_check_time := 0 },
    out_of_band_connectivity := { is_connected := false, last_check_time := 0,
                                  failure_reason := some "f" } }

/-- The one-server store whose single rack triggers the rack-level alert. -/
def c5Store : Store :=
  { servers := [("s1", c5Server)],
    topologies := [("s1", c5Topology)],
    switches := [],
    installation_logs := [("s1", [c5Log])] }

/-- The rack aggregate `get_rack_topology c5Store "rk"` evaluates to. -/
def c5Rack : RackAnalysis :=
  { rack_id := "rk", total_servers := 1, in_band_connected := 1,
    out_of_band_connected := 0,
    servers := [{ server_id := "s1", position := 1, in_band_connected := true,
                  out_of_band_connected := false }],
    alert := some "机柜带外网络大面积故障，可能是上联交换机问题",
    recommended_action := some "检查机柜带外网络上联交换机" }

/-! ## Theorems -/

set_option maxRecDepth 100000

/-- C1: the forced out-of-band-fault scenario (rack-A02 / room-01) does NOT
trip the alert threshold of `get_rack_topology "rack-A02"`: the rack id
aggregates 120 servers across all regions/azs/rooms of which only 44 are
out-of-band-disconnected (failure rate 44/120 ≤ 0.8), so the result carries
neither `alert` nor `recommended_action` — contradicting the claimed (and
spec-mandated) scenario invariant.  A rack with no induced fault
(rack-B02) likewise carries neither field, as the claim's second half
states. -/
theorem C1_forced_fault_rack_has_no_alert :
    (rackOkPart (get_rack_topology initStore "rack-A02")).map
      (fun a => (a.alert, a.recommended_action, a.total_servers, a.out_of_band_connected))
      = some (none, none, 120, 76) ∧
    (rackOkPart (get_rack_topology initStore "rack-B02")).map
      (fun a => (a.alert, a.recommended_action)) = some (none, none) := by
  constructor
  · decide
  · decide

/-- C6 (counterexample): the English query "analyze srv-0020 install
failure" is NOT classified as fault_diagnosis with confidence 0.95 — every
fault-diagnosis keyword is Chinese, so it falls through to the server-id
fallback. -/
theorem C6_english_query_not_fault_diagnosis :
    ¬ ((classifyQuery "analyze srv-0020 install failure").intent = .fault_diagnosis ∧
       (classifyQuery "analyze srv-0020 install failure").confidence = 0.95) := by
  intro h
  exact absurd h.1 (by decide)

/-- C6 (amended): the Chinese fault query gives fault_diagnosis / 0.95 /
server_id srv-0020; the English variant instead gives server_info / 0.8
with the same extracted server id; the rack query gives rack_analysis with
rack_id rack-A02; the online-servers query gives server_info / 0.85 with
status filter "online". -/
theorem C6_representative_queries :
    (classifyQuery "分析srv-0020安装失败的原因").intent = .fault_diagnosis ∧
    (classifyQuery "分析srv-0020安装失败的原因").confidence = 0.95 ∧
    (classifyQuery "分析srv-0020安装失败的原因").entities.server_id = some "srv-0020" ∧
    (classifyQuery "analyze srv-0020 install failure").intent = .server_info ∧
    (classifyQuery "analyze srv-0020 install failure").confidence = 0.8 ∧
    (classifyQuery "analyze srv-0020 install failure").entities.server_id = some "srv-0020" ∧
    (classifyQuery "查看机柜rack-A02的网络拓扑").intent = .rack_analysis ∧
    (classifyQuery "查看机柜rack-A02的网络拓扑").entities.rack_id = some "rack-A02" ∧
    (classifyQuery "查看所有在线的服务器").intent = .server_info ∧
    (classifyQuery "查看所有在线的服务器").confidence = 0.85 ∧
    (classifyQuery "查看所有在线的服务器").filters.status = some "online" := by
  exact ⟨by decide, rfl, by decide, by decide, rfl, by decide, by decide, by decide,
    by decide, rfl, by decide⟩

/-- C7: after `fetch_data` the graph moves to `analyze_fault` iff the
classified intent is fault_diagnosis and no diagnosis is attached yet;
otherwise it moves to `generate_response`; and `analyze_fault` moves to
`generate_response` unconditionally. -/
theorem C7_conditional_edge (state : AgentState) :
    (nextNode .fetch_data state = .analyze_fault ↔
      (∃ a, state.query_analysis = some a ∧ a.intent = .fault_diagnosis) ∧
        state.diagnosis = none) ∧
    (nextNode .fetch_data state = .analyze_fault ∨
      nextNode .fetch_data state = .generate_response) ∧
    nextNode .analyze_fault state = .generate_response := by
  refine ⟨?_, ?_, rfl⟩ <;>
    cases hqa : state.query_analysis with
  | none => simp [nextNode, should_analyze_fault, conditionalBranch, hqa]
  | some a =>
    by_cases hint : a.intent = .fault_diagnosis <;>
      by_cases hd : state.diagnosis = none <;>
        simp [nextNode, should_analyze_fault, conditionalBranch, hqa, hint, hd]

/-- C3 (counterexample): on the fault-diagnosis query for the healthy
server srv-0001, four stages execute — the conditional edge after
`fetch_data` selects `analyze_fault`, and the fallback diagnosis it
attaches is present in the final state — yet the execution history has
only three entries (`analyze_fault` appends nothing), so the history
length does not equal the number of executed stages. -/
theorem C3_analyze_fault_appends_nothing :
    (runWorkflow initStore 0 0 0 "分析srv-0001安装失败的原因" 0).map (fun st =>
      (st.execution_history.map HistoryEntry.step, st.diagnosis.isSome))
      = some (["analyze_query", "fetch_data", "generate_response"], true) ∧
    should_analyze_fault (fetch_data initStore 0 (analyze_query 0
      (initialState "分析srv-0001安装失败的原因" 0))) = "analyze_fault" := by
  constructor
  · decide
  · decide

/-- C3 (amended): `analyze_query` always appends exactly one history entry;
`fetch_data` appends exactly one when an analysis is present and none when
it is absent; `analyze_fault` never appends; `generate_response` appends
exactly one on its normal path and none on its two short-circuit paths
(truthy error, missing analysis); no stage removes or rewrites existing
entries (each new history extends the old one on the right). -/
theorem C3_history_appends (state : AgentState) (now : Int) (store : Store) :
    (∃ e, (analyze_query now state).execution_history =
        state.execution_history ++ [e] ∧ e.step = "analyze_query") ∧
    (state.query_analysis ≠ none →
      ∃ e, (fetch_data store now state).execution_history =
        state.execution_history ++ [e] ∧ e.step = "fetch_data") ∧
    (state.query_analysis = none →
      (fetch_data store now state).execution_history = state.execution_history) ∧
    (analyze_fault state).execution_history = state.execution_history ∧
    (∀ st', generate_response now state = some st' →
      (pyTruthy state.error = true →
        st'.execution_history = state.execution_history) ∧
      (pyTruthy state.error = false → state.query_analysis = none →
        st'.execution_history = state.execution_history) ∧
      (pyTruthy state.error = false → state.query_analysis ≠ none →
        ∃ e, st'.execution_history = state.execution_history ++ [e] ∧
          e.step = "generate_response")) := by
  refine ⟨⟨_, rfl, rfl⟩, ?_, ?_, ?_, ?_⟩
  · intro hne
    cases hqa : state.query_analysis with
    | none => exact absurd hqa hne
    | some a =>
      simp only [fetch_data, hqa]
      repeat' split
      all_goals exact ⟨_, rfl, rfl⟩
  · intro hqa
    simp only [fetch_data, hqa]
  · simp only [analyze_fault]
    split <;> rfl
  · intro st' hgen
    by_cases herr : pyTruthy state.error = true
    · simp only [generate_response, herr, if_true] at hgen
      cases hgen
      exact ⟨fun _ => rfl, fun h => absurd herr (by simp [h]),
        fun h _ => absurd herr (by simp [h])⟩
    · have herr' : pyTruthy state.error = false := by
        cases h : pyTruthy state.error
        · rfl
        · exact absurd h herr
      simp only [generate_response, herr', Bool.false_eq_true, if_false] at hgen
      cases hqa : state.query_analysis with
      | none =>
        simp only [hqa] at hgen
        cases hgen
        exact ⟨fun h => absurd h herr, fun _ _ => rfl, fun _ hne => absurd rfl hne⟩
      | some a =>
        simp only [hqa] at hgen
        refine ⟨fun h => absurd h herr, fun _ h => absurd h (by simp), fun _ _ => ?_⟩
        revert hgen
        repeat' split
        all_goals intro hgen
        all_goals cases hgen
        all_goals exact ⟨_, rfl, rfl⟩

/-- C3 witness: the history-append facts instantiated on a concrete state. -/
theorem C3_history_appends_witness :
    (∃ e, (fetch_data emptyStore 0 c3State).execution_history =
      c3State.execution_history ++ [e] ∧ e.step = "fetch_data") ∧
    (analyze_fault c3State).execution_history = c3State.execution_history ∧
    (∀ st', generate_response 0 c3State = some st' →
      (pyTruthy c3State.error = false → c3State.query_analysis ≠ none →
        ∃ e, st'.execution_history = c3State.execution_history ++ [e] ∧
          e.step = "generate_response")) := by
  have h := C3_history_appends c3State 0 emptyStore
  exact ⟨h.2.1 (by decide), h.2.2.2.1,
    fun st' hgen herr hne => ((h.2.2.2.2 st' hgen).2.2 herr hne)⟩

/-- C4 (counterexample): two calls of `analyze_installation_failure` on the
unmodified default store with identical arguments but distinct call times
return different payloads (the embedded `analysis_time`), refuting
byte-identical idempotence for this operation. -/
theorem C4_analyze_time_not_idempotent :
    analyze_installation_failure_tool initStore 0 "srv-0020" ≠
      analyze_installation_failure_tool initStore 1 "srv-0020" := by
  decide

/-- C4 (amended): every Tool Layer operation is a pure function of the
store and its arguments except `analyze_installation_failure`, whose output
depends on the ambient clock exactly through the `analysis_time` field:
with that field masked, calls at any two times agree. -/
theorem C4_idempotent_up_to_analysis_time (st : Store) (t₁ t₂ : Int) (sid : String) :
    (analyze_installation_failure st t₁ sid).map stripAnalysisTime =
      (analyze_installation_failure st t₂ sid).map stripAnalysisTime := by
  unfold analyze_installation_failure
  cases st.servers.lookup sid with
  | none => rfl
  | some server =>
    dsimp only
    by_cases hf : server.status ≠ ServerStatus.install_failed
    · simp only [if_pos hf]
    · simp only [if_neg hf]
      cases hLL : List.lookup sid st.installation_logs with
      | none =>
        dsimp only [Option.map]
        cases List.lookup sid st.topologies with
        | none => rfl
        | some topology =>
          dsimp only
          cases get_rack_topology st topology.rack_id with
          | err e r => rfl
          | ok ra =>
            dsimp only
            cases ra.alert with
            | none => rfl
            | some al =>
              dsimp only
              cases ra.recommended_action with
              | none => rfl
              | some act => rfl
      | some logs =>
        dsimp only
        cases logs.getLast? with
        | none =>
          dsimp only [Option.map]
          cases List.lookup sid st.topologies with
          | none => rfl
          | some topology =>
            dsimp only
            cases get_rack_topology st topology.rack_id with
            | err e r => rfl
            | ok ra =>
              dsimp only
              cases ra.alert with
              | none => rfl
              | some al =>
                dsimp only
                cases ra.recommended_action with
                | none => rfl
                | some act => rfl
        | some latest =>
          dsimp only [Option.map]
          cases latest.error_summary with
          | none => rfl
          | some es =>
            dsimp only
            cases List.lookup sid st.topologies with
            | none => rfl
            | some topology =>
              dsimp only
              cases get_rack_topology st topology.rack_id with
              | err e r => rfl
              | ok ra =>
                dsimp only
                cases ra.alert with
                | none => rfl
                | some al =>
                  dsimp only
                  cases ra.recommended_action with
                  | none => rfl
                  | some act => rfl

/-- C2 (counterexample): on a state carrying both a disconnected
out-of-band path with failure reason "oob-reason" and an installation log
with error summary "log-summary", `analyze_fault` sets `root_cause` to the
log error summary, not to the out-of-band failure reason — the priority is
the reverse of the claimed one (the log assignment runs second and
overwrites). -/
theorem C2_log_summary_overwrites_oob_reason :
    ((analyze_fault c2State).diagnosis.map DiagnosisResult.root_cause =
      some (some "log-summary")) ∧
    ((analyze_fault c2State).diagnosis.map DiagnosisResult.root_cause ≠
      some (some "oob-reason")) := by
  constructor
  · decide
  · decide

/-- C2 (amended): when `analyze_fault` runs on a fault-diagnosis state with
no diagnosis yet, whose topology slot holds an out-of-band network that is
not connected with a non-null (truthy) failure reason, and whose
installation-logs slot holds an installation record with an error summary,
the attached `DiagnosisResult` has the log error summary as `root_cause`
(the log summary takes priority over the failure reason), confidence
"medium", and the out-of-band recommendation. -/
theorem C2_fallback_diagnosis (state : AgentState) (a : QueryAnalysis)
    (topo : ServerTopologyPayload) (sid : String) (inst : InstallationDict)
    (fr es : String)
    (hqa : state.query_analysis = some a)
    (hint : a.intent = .fault_diagnosis)
    (hd : state.diagnosis = none)
    (htopo : state.topology_info = some (.server (.ok topo)))
    (hoob : topo.out_of_band_network.connectivity.is_connected = false)
    (hfr : topo.out_of_band_network.connectivity.failure_reason = some fr)
    (hfr' : fr ≠ "")
    (hlogs : state.installation_logs = some (.ok sid inst))
    (hes : inst.error_summary = some es) :
    (analyze_fault state).diagnosis = some
      { root_cause := some es, confidence := "medium",
        recommendations := ["检查带外网络连接"],
        next_steps := ["收集更多日志", "检查硬件状态"] } := by
  simp only [analyze_fault, hqa, hint, hd, htopo, hoob, hfr, hlogs, hes]
  simp [pyTruthy, hfr']

/-- C2 witness: the amended fallback-diagnosis behaviour at the concrete
state `c2State`. -/
theorem C2_fallback_diagnosis_witness :
    (analyze_fault c2State).diagnosis = some
      { root_cause := some "log-summary", confidence := "medium",
        recommendations := ["检查带外网络连接"],
        next_steps := ["收集更多日志", "检查硬件状态"] } :=
  C2_fallback_diagnosis c2State { intent := .fault_diagnosis } c2Topo "s1"
    c2Inst "oob-reason" "log-summary" rfl rfl rfl rfl rfl rfl
    (by decide) rfl rfl

/-- C8: `analyze_installation_failure` on a server present in the store
whose status is not install_failed short-circuits with a
`{server_id, message}` payload (a shape with no `diagnosis` key), and on a
server id absent from the store returns an `{error}` payload. -/
theorem C8_not_failed_short_circuit (st : Store) (now : Int) (sid : String) :
    (∀ server, st.servers.lookup sid = some server →
      server.status ≠ .install_failed →
      analyze_installation_failure st now sid = some (.notFailed sid
        ("服务器当前状态为 " ++ server.status.value ++ "，不是安装失败状态"))) ∧
    (st.servers.lookup sid = none →
      analyze_installation_failure st now sid =
        some (.err ("服务器 " ++ sid ++ " 不存在"))) := by
  constructor
  · intro server hs hne
    unfold analyze_installation_failure
    rw [hs]
    simp only [if_pos hne]
  · intro hs
    unfold analyze_installation_failure
    rw [hs]

/-- C8 witness: srv-0001 is online in the default store and gets the
message payload; srv-9999 is absent and gets the error payload. -/
theorem C8_not_failed_short_circuit_witness :
    analyze_installation_failure initStore 0 "srv-0001" = some (.notFailed "srv-0001"
      ("服务器当前状态为 " ++ (ServerStatus.online).value ++ "，不是安装失败状态")) ∧
    analyze_installation_failure initStore 0 "srv-9999" =
      some (.err ("服务器 " ++ "srv-9999" ++ " 不存在")) := by
  constructor
  · exact (C8_not_failed_short_circuit initStore 0 "srv-0001").1
      srv0001 (by decide) (by decide)
  · exact (C8_not_failed_short_circuit initStore 0 "srv-9999").2 (by decide)

/-- C5: for an install-failed server whose log carries an error summary and
whose rack aggregate carries the alert, `analyze_installation_failure`
overrides the diagnosis: `root_cause` becomes the infrastructure-issue
value and the recommendations start with the rack alert note followed by
the rack recommended action, prepended ahead of the log-derived
recommendations, while the log-derived `error_summary` stays present in
the payload. -/
theorem C5_infrastructure_override (st : Store) (now : Int) (sid : String)
    (server : ServerDetails) (logs : List InstallationLog)
    (latest : InstallationLog) (es : String) (topology : TopologyInfo)
    (ra : RackAnalysis) (al act : String)
    (hs : st.servers.lookup sid = some server)
    (hfail : server.status = .install_failed)
    (hl : st.installation_logs.lookup sid = some logs)
    (hlast : logs.getLast? = some latest)
    (hes : latest.error_summary = some es)
    (ht : st.topologies.lookup sid = some topology)
    (hra : get_rack_topology st topology.rack_id = .ok ra)
    (hal : ra.alert = some al)
    (hact : ra.recommended_action = some act) :
    ∃ a, analyze_installation_failure st now sid = some (.ok a) ∧
      a.diagnosis.root_cause = "可能是基础设施问题" ∧
      a.diagnosis.recommendations = ("注意：" ++ al) :: act :: (logDiagnosis es).2 ∧
      a.error_summary = some (some es) := by
  unfold analyze_installation_failure
  simp only [hs]
  rw [if_neg (by simp [hfail])]
  simp only [hl, hlast, Option.map, hes, ht, hra, hal, hact]
  rcases hld : logDiagnosis es with ⟨rc₀, recs₀⟩
  simp only [hld]
  exact ⟨_, rfl, rfl, rfl, rfl⟩

/-- C5 witness: the infrastructure override on the one-server store whose
single rack trips the alert. -/
theorem C5_infrastructure_override_witness :
    ∃ a, analyze_installation_failure c5Store 0 "s1" = some (.ok a) ∧
      a.diagnosis.root_cause = "可能是基础设施问题" ∧
      a.diagnosis.recommendations =
        ("注意：" ++ "机柜带外网络大面积故障，可能是上联交换机问题") ::
          "检查机柜带外网络上联交换机" :: (logDiagnosis "硬件故障：x").2 ∧
      a.error_summary = some (some "硬件故障：x") :=
  C5_infrastructure_override c5Store 0 "s1" c5Server [c5Log] c5Log
    "硬件故障：x" c5Topology c5Rack
    "机柜带外网络大面积故障，可能是上联交换机问题" "检查机柜带外网络上联交换机"
    (by decide) rfl (by decide) rfl rfl (by decide) (by decide) rfl rfl

/-- Scanning with `findTok` returns the match at the first position where the pattern
matches, provided no earlier position matches (the `re.search` leftmost
rule). -/
theorem findTok_of_first (f : List Char → Option (List Char)) :
    ∀ (cs : List Char) (i : Nat) (t : List Char),
      (∀ j, j < i → f (cs.drop j) = none) → f (cs.drop i) = some t →
      findTok f cs = some t := by
  intro cs
  induction cs with
  | nil =>
    intro i t hmin hi
    cases i with
    | zero =>
      simp only [List.drop_nil] at hi
      simp [findTok, hi]
    | succ j =>
      have h0 := hmin 0 (Nat.succ_pos j)
      simp only [List.drop_nil] at h0 hi
      rw [h0] at hi
      cases hi
  | cons c tl ih =>
    intro i t hmin hi
    cases i with
    | zero =>
      simp only [List.drop_zero] at hi
      simp [findTok, hi]
    | succ j =>
      have h0 := hmin 0 (Nat.succ_pos j)
      simp only [List.drop_zero] at h0
      simp only [findTok, h0]
      exact ih j t
        (fun k hk => by simpa using hmin (k + 1) (Nat.succ_lt_succ hk))
        (by simpa using hi)

/-- A prefix of a drop, glued back after a take, is a prefix of the whole. -/
theorem take_append_of_drop_isPfx {p : Char → Bool} (cs : List Char) (n : Nat) :
    (cs.take n ++ (cs.drop n).takeWhile p) <+: cs := by
  obtain ⟨r, hr⟩ := List.takeWhile_prefix (l := cs.drop n) (p := p)
  exact ⟨r, by rw [List.append_assoc, hr, List.take_append_drop]⟩

/-- Any token produced by the server-id pattern at a position is literally
the text at that position (case preserved from the input). -/
theorem tryServerAt_isPfxOf {cs t : List Char} (h : tryServerAt cs = some t) :
    t <+: cs := by
  unfold tryServerAt at h
  dsimp only at h
  split at h
  · split at h
    · cases h
    · cases h
      exact take_append_of_drop_isPfx cs 4
  · split at h
    · split at h
      · cases h
      · cases h
        exact take_append_of_drop_isPfx cs 7
    · cases h

/-- The rack and switch passes never touch the extracted server id. -/
theorem extractEntities_server_id (q : String) :
    (extractEntities q).server_id =
      (findTok tryServerAt q.data).map String.mk := by
  simp only [extractEntities]
  repeat' split
  all_goals simp_all

/-- The keyword cascade stores the extracted entities unchanged. -/
theorem classifyQuery_entities (q : String) :
    (classifyQuery q).entities = extractEntities q := by
  simp only [classifyQuery]
  repeat' split
  all_goals rfl

/-- The analyzer's extracted `server_id` is exactly the leftmost match of
the server-id pattern over the original query text; nothing later in
`classifyQuery` rewrites it. -/
theorem classifyQuery_server_id (q : String) :
    (classifyQuery q).entities.server_id =
      (findTok tryServerAt q.data).map String.mk := by
  rw [classifyQuery_entities, extractEntities_server_id]

/-- C9: if the server-id pattern (`srv-<digits>` or `server-<digits>`,
case-insensitive) matches at position `i` of the query and at no earlier
position, then `entities.server_id` is exactly that token, and the token
is literally the input text at that position (case preserved). -/
theorem C9_server_id_extraction (q : String) (i : Nat) (t : List Char)
    (hmin : ∀ j, j < i → tryServerAt (q.data.drop j) = none)
    (hi : tryServerAt (q.data.drop i) = some t) :
    (classifyQuery q).entities.server_id = some (String.mk t) ∧
      t <+: q.data.drop i := by
  refine ⟨?_, tryServerAt_isPfxOf hi⟩
  rw [classifyQuery_server_id, findTok_of_first tryServerAt q.data i t hmin hi]
  rfl

/-- C9 witness: the mixed-case token SRV-0042 at position 6 of a query is
extracted exactly, case preserved. -/
theorem C9_server_id_extraction_witness :
    (classifyQuery "check SRV-0042 now").entities.server_id =
      some (String.mk "SRV-0042".data) ∧
      "SRV-0042".data <+: ("check SRV-0042 now".data.drop 6) :=
  C9_server_id_extraction "check SRV-0042 now" 6 "SRV-0042".data
    (by decide) (by decide)

/-- C10: for each recognized non-unknown intent requiring an entity
(server_topology, rack_analysis, switch_info, installation_log), a query
classified to that intent with the required entity missing completes the
workflow with no error, the corresponding data slot unset, and a final
response equal to the empty string. -/
theorem C10_missing_entity_empty_response (store : Store)
    (nowA nowF nowG t₀ : Int) (q : String) :
    ((classifyQuery q).intent = .server_topology →
      (classifyQuery q).entities.server_id = none →
      ∃ st, runWorkflow store nowA nowF nowG q t₀ = some st ∧
        st.error = none ∧ st.topology_info = none ∧ st.response = some "") ∧
    ((classifyQuery q).intent = .rack_analysis →
      (classifyQuery q).entities.rack_id = none →
      ∃ st, runWorkflow store nowA nowF nowG q t₀ = some st ∧
        st.error = none ∧ st.topology_info = none ∧ st.response = some "") ∧
    ((classifyQuery q).intent = .switch_info →
      (classifyQuery q).entities.switch_id = none →
      ∃ st, runWorkflow store nowA nowF nowG q t₀ = some st ∧
        st.error = none ∧ st.switch_info = none ∧ st.response = some "") ∧
    ((classifyQuery q).intent = .installation_log →
      (classifyQuery q).entities.server_id = none →
      ∃ st, runWorkflow store nowA nowF nowG q t₀ = some st ∧
        st.error = none ∧ st.installation_logs = none ∧ st.response = some "") := by
  refine ⟨?_, ?_, ?_, ?_⟩ <;> intro hint hent <;>
    simp only [runWorkflow, runFrom, runNode, nextNode, initialState,
      analyze_query, fetch_data, should_analyze_fault, conditionalBranch,
      generate_response, pyTruthy, hint, hent] <;>
    exact ⟨_, rfl, rfl, rfl, rfl⟩

/-- C10 witness: the query "查看网络拓扑" classifies to server_topology
with no server id; the run ends with empty response, no error, empty slot. -/
theorem C10_missing_entity_empty_response_witness :
    ∃ st, runWorkflow emptyStore 0 0 0 "查看网络拓扑" 0 = some st ∧
      st.error = none ∧ st.topology_info = none ∧ st.response = some "" :=
  (C10_missing_entity_empty_response emptyStore 0 0 0 0 "查看网络拓扑").1
    (by decide) (by decide)

end CZ










